import Mathlib

/-!
Verification development for the script-launcher execution subsystem
(`src/main/main.ts`): the three per-language executors
(`executeJavaScript`, `executePython`, `executeShell`), the
`execute-script` dispatch handler, the ad hoc `run-command` handler,
and the sandbox `exec` / `execSync` helpers, shallowly embedded as
pure Lean functions over explicit run-outcome data.
-/

namespace ScriptLauncher

/-- Value produced by an in-process JavaScript evaluation (the `result`
field of a run); `undef` models the JavaScript value `undefined`. -/
inductive JsValue where
  | undef
  | str (s : String)
  | num (n : Int)
  | bool (b : Bool)
deriving DecidableEq

/-- A parameter value from the run request: the TypeScript type is
`string | number` (numbers are modelled as integers here). -/
inductive ParamValue where
  | str (s : String)
  | num (n : Int)
deriving DecidableEq

/-- The unified result shape every executor resolves with:
`{ logs: string[], result?: unknown, error?: string }`. -/
structure ScriptResult where
  logs : List String
  result : JsValue
  error : Option String
deriving DecidableEq

/-- JavaScript `s.split("\n")`: auxiliary over characters, carrying the
(reversed) characters of the current segment. -/
def splitNewlineAux (acc : List Char) : List Char → List String
  | [] => [String.mk acc.reverse]
  | c :: rest =>
    if c = '\n' then String.mk acc.reverse :: splitNewlineAux [] rest
    else splitNewlineAux (c :: acc) rest

/-- JavaScript `s.split("\n")` (so `""` gives `[""]` and a trailing
newline gives a trailing empty segment). -/
def splitNewline (s : String) : List String :=
  splitNewlineAux [] s.toList

/-- Embedding of `stdout.split("\n").filter((line) => line)`: the lines
of a buffer with empty lines discarded (JS truthiness on strings). -/
def nonEmptyLines (s : String) : List String :=
  (splitNewline s).filter (fun line => line ≠ "")

/-- Embedding of the stdout-collection statement shared by the three
subprocess handlers:
`if (stdout) stdout.split("\n").filter(l => l).forEach(l => logs.push(l))`. -/
def collectStdoutLogs (stdout : String) (logs : List String) : List String :=
  if stdout ≠ "" then
    (nonEmptyLines stdout).foldl (fun acc line => acc ++ [line]) logs
  else logs

/-- Text interpolation of a Node `close` exit code, which is a number or
`null` (process killed by a signal); mirrors the template literal. -/
def exitCodeText : Option Int → String
  | some n => toString n
  | none => "null"

/-- A value thrown (or carried by a rejection) inside the in-process
JavaScript evaluation; the catch block distinguishes `Error` instances
(whose `.message` is used) from any other value (passed to `String`). -/
inductive JsThrown where
  | errObj (msg : String)
  | nonErrorValue (text : String)
deriving DecidableEq

/-- Embedding of `error instanceof Error ? error.message : String(error)`. -/
def JsThrown.messageText : JsThrown → String
  | .errObj m => m
  | .nonErrorValue t => t

/-- Outcome of racing the wrapped in-process evaluation against the
10-second timer (`Promise.race`): the evaluation settles first (with a
value or a thrown/rejected failure), or the timer fires first.  Each
constructor carries the log lines pushed by the sandbox console before
settlement. -/
inductive JsEvalOutcome where
  | settled (logs : List String) (value : JsValue)
  | threw (logs : List String) (thrown : JsThrown)
  | timedOut (logs : List String)
deriving DecidableEq

/-- The `10000` millisecond literal of the JavaScript executor's
timeout timer. -/
def jsTimeoutMs : Nat := 10000

/-- The `10000` millisecond literal of the Python executor's timeout. -/
def pythonTimeoutMs : Nat := 10000

/-- The `30000` millisecond literal of the shell executor's timeout. -/
def shellTimeoutMs : Nat := 30000

/-- The `30000` millisecond literal of the `run-command` handler's timeout. -/
def runCommandTimeoutMs : Nat := 30000

/-- Embedding of `executeJavaScript`'s result construction: the whole
body sits in one `try`; a settled evaluation returns `{ logs, result }`;
any caught failure (including the timeout rejection, an `Error` whose
message is the 10s timeout text) returns
`{ logs, result: undefined, error: message }`. -/
def executeJavaScript : JsEvalOutcome → ScriptResult
  | .settled logs value => { logs := logs, result := value, error := none }
  | .threw logs thrown =>
    { logs := logs, result := .undef, error := some thrown.messageText }
  | .timedOut logs =>
    { logs := logs, result := .undef,
      error := some (JsThrown.errObj "Script execution timed out (10s)").messageText }

/-- First event to resolve a subprocess run's promise: the child's
`close` event (exit code, accumulated stdout and stderr buffers), its
`error` event (spawn failure message), or the timeout timer.  The
resolve-once guard of a promise makes the later events no-ops, so one
constructor describes the whole run; on a timeout the `close` handler
has not run, hence no logs were pushed yet. -/
inductive ProcOutcome where
  | close (exitCode : Option Int) (stdout : String) (stderr : String)
  | spawnErr (msg : String)
  | timeout
deriving DecidableEq

/-- Embedding of `executePython`'s resolution (close handler, error
handler, and timeout callback). -/
def executePython : ProcOutcome → ScriptResult
  | .close exitCode stdout stderr =>
    let logs := collectStdoutLogs stdout []
    if exitCode ≠ some 0 ∨ stderr ≠ "" then
      { logs := logs, result := .undef,
        error := some (if stderr ≠ "" then stderr
          else "Process exited with code " ++ exitCodeText exitCode) }
    else { logs := logs, result := .undef, error := none }
  | .spawnErr msg =>
    { logs := [], result := .undef,
      error := some ("Failed to execute Python: " ++ msg) }
  | .timeout =>
    { logs := [], result := .undef,
      error := some "Script execution timed out (10s)" }

/-- Embedding of `executeShell`'s resolution: stdout lines are pushed
first; in the failure branch (`exitCode !== 0 || stderr`) each
non-empty stderr line is pushed with an `[ERROR] ` marker, and the
error field is the exit-code description only when the exit code was
non-zero, `undefined` otherwise. -/
def executeShell : ProcOutcome → ScriptResult
  | .close exitCode stdout stderr =>
    let logs0 := collectStdoutLogs stdout []
    if exitCode ≠ some 0 ∨ stderr ≠ "" then
      let logs1 :=
        if stderr ≠ "" then
          (nonEmptyLines stderr).foldl
            (fun acc line => acc ++ ["[ERROR] " ++ line]) logs0
        else logs0
      { logs := logs1, result := .undef,
        error := if exitCode ≠ some 0 then
            some ("Exit code: " ++ exitCodeText exitCode)
          else none }
    else { logs := logs0, result := .undef, error := none }
  | .spawnErr msg =>
    { logs := [], result := .undef,
      error := some ("Failed to execute shell: " ++ msg) }
  | .timeout =>
    { logs := [], result := .undef,
      error := some "Script execution timed out (30s)" }

/-- Embedding of the `run-command` IPC handler's resolution: same
structure as `executeShell` but with its own spawn-failure and timeout
message texts. -/
def runCommand : ProcOutcome → ScriptResult
  | .close exitCode stdout stderr =>
    let logs0 := collectStdoutLogs stdout []
    if exitCode ≠ some 0 ∨ stderr ≠ "" then
      let logs1 :=
        if stderr ≠ "" then
          (nonEmptyLines stderr).foldl
            (fun acc line => acc ++ ["[ERROR] " ++ line]) logs0
        else logs0
      { logs := logs1, result := .undef,
        error := if exitCode ≠ some 0 then
            some ("Exit code: " ++ exitCodeText exitCode)
          else none }
    else { logs := logs0, result := .undef, error := none }
  | .spawnErr msg =>
    { logs := [], result := .undef,
      error := some ("Failed to execute command: " ++ msg) }
  | .timeout =>
    { logs := [], result := .undef,
      error := some "Command execution timed out (30s)" }

/-- Environment behaviour available to one dispatched run: how the
in-process evaluation would settle and how the spawned subprocess would
resolve (only the branch the dispatcher selects is observed). -/
structure RunEnv where
  js : JsEvalOutcome
  proc : ProcOutcome
deriving DecidableEq

/-- Embedding of the `execute-script` IPC handler: route by the
`language` string (`undefined` at runtime is modelled as `none`);
`"python"` and `"shell"` select the subprocess executors, anything else
falls through to `executeJavaScript`.  The `code` and `inputs`
arguments are forwarded to the chosen executor; they influence the run
only through the environment outcome. -/
def executeScript (code : String) (inputs : List (String × ParamValue))
    (language : Option String) (env : RunEnv) : ScriptResult :=
  if language = some "python" then executePython env.proc
  else if language = some "shell" then executeShell env.proc
  else executeJavaScript env.js

/-- Embedding of `value.replace(/"/g, '\\"')` over characters: every
double-quote character is replaced by a backslash-quote pair; no other
character (in particular no backslash) is touched. -/
def escapeDqList : List Char → List Char
  | [] => []
  | c :: rest => (if c = '"' then ['\\', '"'] else [c]) ++ escapeDqList rest

/-- String form of `escapeDqList`. -/
def escapeDq (s : String) : String :=
  String.mk (escapeDqList s.toList)

/-- Embedding of one iteration of `executePython`'s input loop: a string
parameter becomes `key = "escaped"` and a numeric parameter becomes
`key = value`, each followed by a newline. -/
def paramAssignment (key : String) : ParamValue → String
  | .str v => key ++ " = \"" ++ escapeDq v ++ "\"\n"
  | .num n => key ++ " = " ++ toString n ++ "\n"

/-- Embedding of the `inputCode` accumulation (`inputCode += ...` over
`Object.entries(inputs)` in iteration order). -/
def pythonInputCode (inputs : List (String × ParamValue)) : String :=
  inputs.foldl (fun acc kv => acc ++ paramAssignment kv.1 kv.2) ""

/-- Embedding of `fullCode = inputCode + code`. -/
def pythonFullCode (code : String) (inputs : List (String × ParamValue)) : String :=
  pythonInputCode inputs ++ code

/-- Embedding of the argument vector of
`spawn("python3", ["-c", fullCode])`. -/
def pythonSpawnArgs (code : String) (inputs : List (String × ParamValue)) : List String :=
  ["-c", pythonFullCode code inputs]

/-- Modelled from the spec: CPython's lexing of the body of a
double-quoted string literal, used to state what the generated
assignment means to the interpreter.  Reads characters until an
unescaped closing quote and returns the decoded content together with
the characters after the literal; a raw newline or end of input before
the closing quote is a syntax error (`none`).  The escape pairs the
generator can produce are decoded (backslash-quote to a quote,
backslash-backslash to a backslash); any other backslash pair is kept
verbatim, as CPython does for unrecognized escapes that matter here. -/
def pyLexBody : List Char → Option (List Char × List Char)
  | [] => none
  | c :: rest =>
    if c = '"' then some ([], rest)
    else if c = '\n' then none
    else if c = '\\' then
      match rest with
      | [] => none
      | d :: rest' =>
        match pyLexBody rest' with
        | none => none
        | some (content, after) =>
          some ((if d = '"' ∨ d = '\\' then [d] else ['\\', d]) ++ content, after)
    else
      match pyLexBody rest with
      | none => none
      | some (content, after) => some (c :: content, after)

/-- Modelled from the spec: parse a leading double-quoted string literal
from a source fragment, returning its decoded value and the remaining
source text (empty exactly when the literal consumed the fragment). -/
def parsePyDqLit (s : String) : Option (String × String) :=
  match s.toList with
  | [] => none
  | c :: rest =>
    if c = '"' then
      match pyLexBody rest with
      | none => none
      | some (content, after) => some (String.mk content, String.mk after)
    else none

/-- Raw behaviour of the blocking `child_process.execSync` call inside
the sandbox helper: it completes with the child's captured output text,
or it throws an error object that may carry a `stderr` property (paired
here with the `String(error)` fallback text), or it throws some other
error. -/
inductive ExecRaw where
  | completed (output : String)
  | failedWithStderr (stderrText : String) (fallbackText : String)
  | failedOther (errorText : String)
deriving DecidableEq

/-- Embedding of the wrapper `execSync`: on completion the output is
trimmed and returned; a caught error carrying a `stderr` property is
rethrown as `new Error(error.stderr || String(error))`; any other error
is rethrown as-is. -/
def execSyncRun : ExecRaw → Except String String
  | .completed output => .ok output.trim
  | .failedWithStderr st fb => .error (if st ≠ "" then st else fb)
  | .failedOther t => .error t

/-- Embedding of the sandbox `exec` binding: call `execSync`; on a
returned value, push it onto the run's logs when truthy (non-empty) and
hand it back to the script; a thrown error propagates with the logs
untouched.  The pair is (value or thrown error, updated logs). -/
def execHelper (raw : ExecRaw) (logs : List String) :
    Except String String × List String :=
  match execSyncRun raw with
  | .ok result => (.ok result, if result ≠ "" then logs ++ [result] else logs)
  | .error e => (.error e, logs)

/-- Spec-side predicate, following the claimed invariant's wording: an
in-process run is unsuccessful when the evaluation threw/rejected or
the timer won the race. -/
def jsRunUnsuccessful : JsEvalOutcome → Bool
  | .settled _ _ => false
  | .threw _ _ => true
  | .timedOut _ => true

/-- Spec-side predicate, following the Python failure policy's wording:
a run is unsuccessful on spawn failure, timeout, or a close with a
non-zero (or signal) exit code or any stderr content. -/
def pythonRunUnsuccessful : ProcOutcome → Bool
  | .close ec _ err => decide (ec ≠ some 0) || decide (err ≠ "")
  | .spawnErr _ => true
  | .timeout => true

/-- Spec-side predicate, following the shell failure policy's wording
(the one the claimed invariant refers to): non-zero exit or non-empty
stderr marks the run as failed, as do spawn failure and timeout. -/
def shellRunUnsuccessful : ProcOutcome → Bool
  | .close ec _ err => decide (ec ≠ some 0) || decide (err ≠ "")
  | .spawnErr _ => true
  | .timeout => true

/-- Spec-side predicate describing when the shell executor actually
sets the error field: spawn failure, timeout, or a close whose exit
code is not zero (stderr content alone does not set it). -/
def shellErrorExpected : ProcOutcome → Bool
  | .close ec _ _ => decide (ec ≠ some 0)
  | .spawnErr _ => true
  | .timeout => true

theorem foldl_push_eq_append (xs l : List String) :
    xs.foldl (fun acc line => acc ++ [line]) l = l ++ xs := by
  induction xs generalizing l with
  | nil => simp
  | cons x xs ih => simp [List.foldl_cons, ih]

theorem foldl_push_map_eq_append (f : String → String) (xs l : List String) :
    xs.foldl (fun acc line => acc ++ [f line]) l = l ++ xs.map f := by
  induction xs generalizing l with
  | nil => simp
  | cons x xs ih => simp [List.foldl_cons, ih]

theorem nonEmptyLines_empty : nonEmptyLines "" = [] := by decide

theorem collectStdoutLogs_eq (stdout : String) (logs : List String) :
    collectStdoutLogs stdout logs = logs ++ nonEmptyLines stdout := by
  unfold collectStdoutLogs
  by_cases h : stdout = ""
  · subst h
    simp [nonEmptyLines_empty]
  · simp [h, foldl_push_eq_append]

/-- Claim C1 (counterexample): the claimed invariant — error set iff
the run was unsuccessful, with non-empty stderr counting as
unsuccessful under the shell failure policy — fails at a concrete
input: a shell run closing with exit code 0 and stderr "oops" is
unsuccessful under the claim, yet its result's error field is `none`. -/
theorem shell_exit_zero_stderr_error_none :
    shellRunUnsuccessful (ProcOutcome.close (some 0) "" "oops") = true ∧
    (executeShell (ProcOutcome.close (some 0) "" "oops")).error = none := by decide

/-- Claim C1 (amended): error presence is characterized per executor —
for the JavaScript and Python executors the error field is present iff
the run was unsuccessful exactly as the claim says, but for the shell
executor it is present iff the run timed out, failed to spawn, or
closed with a non-zero exit code; a shell run closing with exit code 0
and non-empty stderr carries prefixed error logs but no error field. -/
theorem error_presence_characterization :
    (∀ o, (executeJavaScript o).error.isSome = jsRunUnsuccessful o) ∧
    (∀ o, (executePython o).error.isSome = pythonRunUnsuccessful o) ∧
    (∀ o, (executeShell o).error.isSome = shellErrorExpected o) := by
  refine ⟨fun o => ?_, fun o => ?_, fun o => ?_⟩
  · cases o <;> rfl
  · cases o with
    | close ec stdout stderr =>
      by_cases h1 : ec = some 0 <;> by_cases h2 : stderr = "" <;>
        simp [executePython, pythonRunUnsuccessful, h1, h2]
    | spawnErr m => rfl
    | timeout => rfl
  · cases o with
    | close ec stdout stderr =>
      by_cases h1 : ec = some 0 <;> by_cases h2 : stderr = "" <;>
        simp [executeShell, shellErrorExpected, h1, h2]
    | spawnErr m => rfl
    | timeout => rfl

/-- Claim C2 (counterexample): the claim says the error field is left
unset whenever stderr was non-empty, even with a non-zero exit code; in
fact a shell run closing with exit code 1 and stderr "boom" gets the
exit-code description as its error. -/
theorem shell_nonzero_exit_stderr_error_set :
    ("boom" : String) ≠ "" ∧
    (executeShell (ProcOutcome.close (some 1) "" "boom")).error
      = some "Exit code: 1" ∧
    some "Exit code: 1" ≠ (none : Option String) := by decide

/-- Claim C2 (amended): on a shell close, each non-empty stderr line
becomes one log entry with the `[ERROR] ` marker appended after the
stdout-derived entries, and the error field is the exit-code
description exactly when the exit code is non-zero (and unset exactly
when it is zero, regardless of stderr content). -/
theorem shell_close_characterization (ec : Option Int) (stdout stderr : String) :
    executeShell (.close ec stdout stderr) =
      { logs := nonEmptyLines stdout ++
          (nonEmptyLines stderr).map (fun line => "[ERROR] " ++ line),
        result := .undef,
        error := if ec = some 0 then none
          else some ("Exit code: " ++ exitCodeText ec) } := by
  by_cases h1 : ec = some 0 <;> by_cases h2 : stderr = "" <;>
    simp [executeShell, collectStdoutLogs_eq, foldl_push_map_eq_append,
      h1, h2, nonEmptyLines_empty]

/-- Claim C3 (counterexample): the claim says every script-level
failure is converted into the result's error field; a dispatched shell
run closing with exit code 0 and non-empty stderr (a failure under the
shell failure policy) resolves with the error field unset. -/
theorem dispatch_shell_stderr_error_unset :
    ("warning" : String) ≠ "" ∧
    (executeScript "c" [] (some "shell")
      { js := .settled [] .undef,
        proc := .close (some 0) "out" "warning" }).error = none := by decide

/-- Claim C3 (amended): the dispatch operation always resolves to the
Script Result of one of the three executors (each a total function —
nothing is thrown or rejected past the executor), and every thrown
evaluation, timeout, spawn failure, and Python close failure sets the
error field; a shell close sets it exactly when the exit code is
non-zero, a stderr-only shell failure surfacing as prefixed log
entries instead. -/
theorem executors_absorb_failures :
    (∀ code inputs language env,
      executeScript code inputs language env = executeJavaScript env.js ∨
      executeScript code inputs language env = executePython env.proc ∨
      executeScript code inputs language env = executeShell env.proc) ∧
    (∀ logs thrown, (executeJavaScript (.threw logs thrown)).error.isSome = true) ∧
    (∀ logs, (executeJavaScript (.timedOut logs)).error.isSome = true) ∧
    (∀ m, (executePython (.spawnErr m)).error.isSome = true) ∧
    ((executePython .timeout).error.isSome = true) ∧
    (∀ ec stdout stderr, (executePython (.close ec stdout stderr)).error.isSome =
      (decide (ec ≠ some 0) || decide (stderr ≠ ""))) ∧
    (∀ m, (executeShell (.spawnErr m)).error.isSome = true) ∧
    ((executeShell .timeout).error.isSome = true) ∧
    (∀ ec stdout stderr, (executeShell (.close ec stdout stderr)).error.isSome =
      decide (ec ≠ some 0)) := by
  refine ⟨fun code inputs language env => ?_, fun _ _ => rfl, fun _ => rfl,
    fun _ => rfl, rfl, fun ec stdout stderr => ?_, fun _ => rfl, rfl,
    fun ec stdout stderr => ?_⟩
  · by_cases hp : language = some "python"
    · simp [executeScript, hp]
    · by_cases hs : language = some "shell"
      · simp [executeScript, hp, hs]
      · simp [executeScript, hp, hs]
  · by_cases h1 : ec = some 0 <;> by_cases h2 : stderr = "" <;>
      simp [executePython, h1, h2]
  · by_cases h1 : ec = some 0 <;> by_cases h2 : stderr = "" <;>
      simp [executeShell, h1, h2]

/-- Claim C4: the in-process executor races the evaluation against the
fixed 10-second (10000 ms) timer — the race outcome alone determines
the result — and when the timer wins the result keeps every log line
pushed before the timeout and carries the timeout message as its
error. -/
theorem js_timeout_characterization :
    jsTimeoutMs = 10000 ∧
    ∀ logs, executeJavaScript (.timedOut logs) =
      { logs := logs, result := JsValue.undef,
        error := some "Script execution timed out (10s)" } :=
  ⟨rfl, fun _ => rfl⟩

theorem pyLexBody_cons (c : Char) (rest : List Char) :
    pyLexBody (c :: rest) =
      if c = '"' then some ([], rest)
      else if c = '\n' then none
      else if c = '\\' then
        match rest with
        | [] => none
        | d :: rest' =>
          match pyLexBody rest' with
          | none => none
          | some (content, after) =>
            some ((if d = '"' ∨ d = '\\' then [d] else ['\\', d]) ++ content, after)
      else
        match pyLexBody rest with
        | none => none
        | some (content, after) => some (c :: content, after) := by
  rw [pyLexBody.eq_def]

theorem pyLexBody_escapeDqList (l tail : List Char)
    (hb : '\\' ∉ l) (hn : '\n' ∉ l) :
    pyLexBody (escapeDqList l ++ '"' :: tail) = some (l, tail) := by
  induction l with
  | nil => simp [escapeDqList, pyLexBody_cons]
  | cons c rest ih =>
    have hb' : '\\' ∉ rest := fun h => hb (List.mem_cons_of_mem _ h)
    have hn' : '\n' ∉ rest := fun h => hn (List.mem_cons_of_mem _ h)
    have hcb : c ≠ '\\' := fun h => hb (h ▸ List.mem_cons_self _ _)
    have hcn : c ≠ '\n' := fun h => hn (h ▸ List.mem_cons_self _ _)
    by_cases hc : c = '"'
    · subst hc
      simp [escapeDqList, pyLexBody_cons, ih hb' hn']
    · simp [escapeDqList, pyLexBody_cons, hc, hcb, hcn, ih hb' hn']

theorem parsePyDqLit_escape (v : String)
    (hb : '\\' ∉ v.toList) (hn : '\n' ∉ v.toList) :
    parsePyDqLit ("\"" ++ escapeDq v ++ "\"") = some (v, "") := by
  have key := pyLexBody_escapeDqList v.data [] hb hn
  have hlist : ("\"" ++ escapeDq v ++ "\"").toList
      = '"' :: (escapeDqList v.data ++ '"' :: []) := by
    show ("\"" ++ escapeDq v ++ "\"").data = _
    rw [String.data_append, String.data_append]
    show ['"'] ++ escapeDqList v.data ++ ['"'] = _
    simp
  unfold parsePyDqLit
  rw [hlist]
  simp [key]

/-- Claim C5 (counterexample): escaping handles only double quotes, not
backslashes, so round-tripping fails for a quote-containing value: for
the value backslash-quote the emitted literal decodes to a lone
backslash with a dangling quote left over on the assignment line (an
unterminated second literal), not to the original value. -/
theorem python_escape_backslash_cex :
    ('"' ∈ ("\\\"" : String).toList) ∧
    parsePyDqLit ("\"" ++ escapeDq "\\\"" ++ "\"") = some ("\\", "\"") ∧
    (some (("\\" : String), ("\"" : String)) : Option (String × String))
      ≠ some ("\\\"", "") := by decide

/-- Claim C5 (amended): the interpreter is invoked in `-c` mode on the
assignments followed by the code; a string parameter is emitted as the
name, an equals sign, and the double-quoted value with each embedded
double quote escaped, and a numeric parameter as a bare literal; the
quoting round-trips for every value containing no backslash and no
newline (values with backslashes can break the generated literal,
since backslashes are not escaped). -/
theorem python_injection_characterization (key v : String) (n : Int)
    (code : String) (inputs : List (String × ParamValue)) :
    pythonSpawnArgs code inputs = ["-c", pythonInputCode inputs ++ code] ∧
    paramAssignment key (.str v) = key ++ " = \"" ++ escapeDq v ++ "\"\n" ∧
    paramAssignment key (.num n) = key ++ " = " ++ toString n ++ "\n" ∧
    ('\\' ∉ v.toList → '\n' ∉ v.toList →
      parsePyDqLit ("\"" ++ escapeDq v ++ "\"") = some (v, "")) :=
  ⟨rfl, rfl, rfl, fun hb hn => parsePyDqLit_escape v hb hn⟩

/-- Claim C5 (witness): the round-trip clause applied to a concrete
quote-containing, backslash-free value. -/
theorem python_injection_witness :
    ('\\' ∉ ("say \"hi\"" : String).toList) ∧
    parsePyDqLit ("\"" ++ escapeDq "say \"hi\"" ++ "\"")
      = some ("say \"hi\"", "") :=
  ⟨by decide,
    (python_injection_characterization "k" "say \"hi\"" 0 "" []).2.2.2
      (by decide) (by decide)⟩

/-- Claim C6: a Python run that closes with a numeric exit code is
failed exactly when the exit code is non-zero or stderr is non-empty;
the error is the stderr text verbatim, falling back to the exit-code
description only when stderr is empty, and the logs are the non-empty
stdout lines in order. -/
theorem python_close_characterization (n : Int) (stdout stderr : String) :
    (executePython (.close (some n) stdout stderr)).logs = nonEmptyLines stdout ∧
    ((executePython (.close (some n) stdout stderr)).error.isSome
      ↔ (n ≠ 0 ∨ stderr ≠ "")) ∧
    (executePython (.close (some n) stdout stderr)).error =
      (if n ≠ 0 ∨ stderr ≠ "" then
        some (if stderr ≠ "" then stderr
          else "Process exited with code " ++ toString n)
      else none) := by
  by_cases h1 : n = 0 <;> by_cases h2 : stderr = "" <;>
    simp [executePython, collectStdoutLogs_eq, exitCodeText, h1, h2]

/-- Claim C7: dispatch routes by the language tag alone — "python" to
the Python executor, "shell" to the shell executor, and any other
value (including a missing tag, modelled as `none`) to the in-process
JavaScript executor; the fallback is not an error condition, so a
settled evaluation dispatched through it has no error field. -/
theorem dispatch_routing (code : String)
    (inputs : List (String × ParamValue)) (env : RunEnv) :
    executeScript code inputs (some "python") env = executePython env.proc ∧
    executeScript code inputs (some "shell") env = executeShell env.proc ∧
    (∀ language : Option String,
      language ≠ some "python" → language ≠ some "shell" →
      executeScript code inputs language env = executeJavaScript env.js) ∧
    (∀ language : Option String,
      language ≠ some "python" → language ≠ some "shell" →
      ∀ logs v, env.js = .settled logs v →
        (executeScript code inputs language env).error = none) := by
  refine ⟨by simp [executeScript], by simp [executeScript],
    fun language h1 h2 => ?_, fun language h1 h2 logs v hjs => ?_⟩
  · simp [executeScript, h1, h2]
  · simp [executeScript, h1, h2, hjs, executeJavaScript]

/-- Claim C7 (witness): the routing claim applied to an unrecognized
tag and to a missing tag. -/
theorem dispatch_routing_witness :
    executeScript "x" [] (some "ruby")
      { js := .settled [] .undef, proc := .timeout }
      = executeJavaScript (.settled [] .undef) ∧
    (executeScript "x" [] none
      { js := .settled [] .undef, proc := .timeout }).error = none := by
  constructor
  · exact (dispatch_routing "x" []
      { js := .settled [] .undef, proc := .timeout }).2.2.1
      (some "ruby") (by decide) (by decide)
  · exact (dispatch_routing "x" []
      { js := .settled [] .undef, proc := .timeout }).2.2.2
      none (by decide) (by decide) [] .undef rfl

/-- Claim C8 (counterexample): the ad hoc `run-command` entry point
does not return the same Script Result as the shell executor in the
timeout and spawn-failure cases — the message texts differ. -/
theorem runCommand_timeout_differs :
    runCommand ProcOutcome.timeout ≠ executeShell ProcOutcome.timeout ∧
    runCommand (ProcOutcome.spawnErr "m")
      ≠ executeShell (ProcOutcome.spawnErr "m") := by decide

/-- Claim C8 (amended): on every close outcome the ad hoc command
entry point returns exactly the shell executor's Script Result (same
stdout and stderr collection and failure policy), and it uses the same
30-second timeout duration; but its spawn-failure and timeout error
messages use their own wording. -/
theorem runCommand_shell_equivalence :
    (∀ ec stdout stderr, runCommand (.close ec stdout stderr)
      = executeShell (.close ec stdout stderr)) ∧
    runCommandTimeoutMs = shellTimeoutMs ∧
    (∀ m, runCommand (.spawnErr m) =
      { logs := [], result := .undef,
        error := some ("Failed to execute command: " ++ m) }) ∧
    runCommand .timeout =
      { logs := [], result := .undef,
        error := some "Command execution timed out (30s)" } :=
  ⟨fun _ _ _ => rfl, rfl, fun _ => rfl, rfl⟩

/-- Claim C9: any caught throw or rejection makes the thrown value's
message text (its `.message` for an `Error`, its string form
otherwise) the result's error, with the logs kept; a settled
evaluation's value becomes the result's value field with no error. -/
theorem js_capture_characterization :
    (∀ logs thrown, executeJavaScript (.threw logs thrown) =
      { logs := logs, result := .undef, error := some thrown.messageText }) ∧
    (∀ m, (JsThrown.errObj m).messageText = m) ∧
    (∀ t, (JsThrown.nonErrorValue t).messageText = t) ∧
    (∀ logs v, executeJavaScript (.settled logs v) =
      { logs := logs, result := v, error := none }) :=
  ⟨fun _ _ => rfl, fun _ => rfl, fun _ => rfl, fun _ _ => rfl⟩

/-- Claim C10: when the sandbox `exec` helper's command succeeds, the
trimmed output is returned to the script, and it is appended to the
run's logs as exactly one entry when non-empty and not appended when
empty. -/
theorem exec_helper_logging (output : String) (logs : List String) :
    execHelper (.completed output) logs =
      (Except.ok output.trim,
        if output.trim ≠ "" then logs ++ [output.trim] else logs) := rfl

end ScriptLauncher
